import Mathlib

/-!
Verification of src/salesforce_object_operations.py.

The development embeds the pure content of the script: the flattening of
bulk-operation results into error-log rows, the append-with-dedup merge
into the error-log file, and the control flow of the three jobs
(extraction, deletion, verification).  File contents are modelled as
lists of rows; the Salesforce client and the file system are passed in as
explicit functions returning Except values, where an Except.error models
a raised Python exception.  A function whose body converts an error to a
normal value models a try/except block; a function that returns the
error unchanged models code running outside any try block.
-/

namespace SfOps

/-- A nested error descriptor inside one bulk-operation result: the
statusCode and message fields of one element of the errors list. -/
structure BulkError where
  statusCode : String
  message : String
deriving DecidableEq

/-- One per-record result of the bulk delete call: success flag, created
flag, record id, and zero-or-more nested error descriptors. -/
structure BulkOperationResult where
  success : Bool
  created : Bool
  id : String
  errors : List BulkError
deriving DecidableEq

/-- One flattened row of the error log, as built by save_error_to_csv. -/
structure ErrorLogEntry where
  success : Bool
  created : Bool
  id : String
  statusCode : Option String
  message : Option String
deriving DecidableEq

/-- The flat_error dictionary built for one result inside the loop of
save_error_to_csv (lines 85-91): success, created and id are copied;
statusCode and message come from errors[0] when the errors list is
non-empty and are None otherwise. -/
def flat_error (e : BulkOperationResult) : ErrorLogEntry :=
  { success := e.success
    created := e.created
    id := e.id
    statusCode :=
      match e.errors with
      | [] => none
      | er :: _ => some er.statusCode
    message :=
      match e.errors with
      | [] => none
      | er :: _ => some er.message }

/-- The flat_errors list accumulated by the loop of save_error_to_csv
(lines 83-92): one flattened row appended per input result, in order. -/
def flat_errors (errors : List BulkOperationResult) : List ErrorLogEntry :=
  errors.map flat_error

/-- State of the error-log file: absent (os.path.exists is false),
present but not parseable as a table (pandas read_csv raises
EmptyDataError), or a table of rows. -/
inductive ErrorLogFile where
  | absent
  | emptyData
  | table (rows : List ErrorLogEntry)
deriving DecidableEq

/-- The rows a file state holds (none when absent or empty). -/
def rowsOf : ErrorLogFile → List ErrorLogEntry
  | ErrorLogFile.absent => []
  | ErrorLogFile.emptyData => []
  | ErrorLogFile.table rows => rows

/-- Helper for pandas DataFrame.drop_duplicates: keep each row whose
value was not already kept; seen accumulates the values kept so far. -/
def dedupSeen {α : Type} [DecidableEq α] (seen : List α) : List α → List α
  | [] => []
  | x :: xs =>
      if x ∈ seen then dedupSeen seen xs
      else x :: dedupSeen (x :: seen) xs

/-- pandas DataFrame.drop_duplicates with default arguments: remove every
row equal to an earlier row, keeping the first occurrence. -/
def drop_duplicates {α : Type} [DecidableEq α] (l : List α) : List α :=
  dedupSeen [] l

/-- Lines 94-104 of save_error_to_csv, acting on the already-flattened
rows df: when the file exists and parses, concatenate the existing rows
with df, drop duplicate rows and overwrite; when it exists but pandas
raises EmptyDataError, or when it does not exist, write df as is. -/
def appendDeduplicated (df : List ErrorLogEntry) : ErrorLogFile → ErrorLogFile
  | ErrorLogFile.table existing =>
      ErrorLogFile.table (drop_duplicates (existing ++ df))
  | ErrorLogFile.emptyData => ErrorLogFile.table df
  | ErrorLogFile.absent => ErrorLogFile.table df

/-- save_error_to_csv: flatten the results, then merge the flattened rows
into the error-log file. -/
def save_error_to_csv (errors : List BulkOperationResult)
    (file : ErrorLogFile) : ErrorLogFile :=
  appendDeduplicated (flat_errors errors) file

/-- The append-with-dedup store contract as the specification words it:
concatenate the rows the path currently holds (an empty list when the
path is absent or present-but-empty) with the new rows, remove exact
duplicates keeping the first occurrence, and overwrite. -/
def appendDeduplicatedSpec (df : List ErrorLogEntry)
    (file : ErrorLogFile) : ErrorLogFile :=
  ErrorLogFile.table (drop_duplicates (rowsOf file ++ df))

/-- An uncaught Python exception escaping a function. -/
inductive PyExn where
  | readFailure
  | gatewayFailure
deriving DecidableEq

/-- Outcome of query_and_write_records when it returns normally: either
the csv was written with the fetched ids and the success line printed, or
the except branch printed the error. -/
inductive ExtractionOutcome where
  | savedCsv (ids : List String)
  | printedError
deriving DecidableEq

/-- query_and_write_records (lines 22-36): the whole body, from the query
through the csv write, sits inside one try/except, so a failing fetch or
a failing write is caught and printed and the function returns
normally. -/
def query_and_write_records (fetch : Except PyExn (List String))
    (toCsv : List String → Except PyExn Unit) :
    Except PyExn ExtractionOutcome :=
  match fetch with
  | Except.error _ => Except.ok ExtractionOutcome.printedError
  | Except.ok records =>
      match toCsv records with
      | Except.ok _ => Except.ok (ExtractionOutcome.savedCsv records)
      | Except.error _ => Except.ok ExtractionOutcome.printedError

/-- Observable outcome of read_ids_from_csv when it returns normally: the
argument lists passed to the bulk delete call in order, the resulting
error-log file, and whether the except branch printed an error. -/
structure DeletionOutcome where
  bulkCalls : List (List String)
  errorLog : ErrorLogFile
  printedError : Bool
deriving DecidableEq

/-- read_ids_from_csv (lines 39-55): pd.read_csv runs before the try
block, so a read failure escapes the function; the bulk delete call and
save_error_to_csv run inside try/except, so a gateway failure is caught
and printed. -/
def read_ids_from_csv (readResult : Except PyExn (List String))
    (bulkDelete : List String → Except PyExn (List BulkOperationResult))
    (log : ErrorLogFile) : Except PyExn DeletionOutcome :=
  match readResult with
  | Except.error e => Except.error e
  | Except.ok records =>
      match bulkDelete records with
      | Except.ok result =>
          Except.ok { bulkCalls := [records]
                      errorLog := save_error_to_csv result log
                      printedError := false }
      | Except.error _ =>
          Except.ok { bulkCalls := [records]
                      errorLog := log
                      printedError := true }

/-- Python str.join as used on line 67: concatenate the elements with the
separator between consecutive elements. -/
def joinSep (sep : String) : List String → String
  | [] => ""
  | [x] => x
  | x :: xs => x ++ sep ++ joinSep sep xs

/-- Line 67: the id column joined with a quote-comma-quote separator. -/
def id_str (id_list : List String) : String :=
  joinSep "\x27,\x27" id_list

/-- Line 68: the SOQL membership query built by check_deleted_records,
embedding the joined ids between single quotes. -/
def deletionCheckQuery (object_type : String) (id_list : List String) :
    String :=
  "SELECT Id FROM " ++ object_type ++ " WHERE Id IN (\x27" ++
    id_str id_list ++ "\x27)"

/-- check_deleted_records (lines 58-73): the read runs before the try
block, so a read failure escapes; the query is always built from the id
column and passed to query_all inside try/except.  The normal return
carries the query that was issued and whether the result was printed
(true) or the except branch printed an error (false). -/
def check_deleted_records (object_type : String)
    (readResult : Except PyExn (List String))
    (query_all : String → Except PyExn (List String)) :
    Except PyExn (String × Bool) :=
  match readResult with
  | Except.error e => Except.error e
  | Except.ok id_list =>
      match query_all (deletionCheckQuery object_type id_list) with
      | Except.ok _ => Except.ok (deletionCheckQuery object_type id_list, true)
      | Except.error _ =>
          Except.ok (deletionCheckQuery object_type id_list, false)

/-- Membership in dedupSeen: an element is kept exactly when it occurs in
the input and was not already seen. -/
theorem mem_dedupSeen {α : Type} [DecidableEq α] (l : List α) :
    ∀ (seen : List α) (a : α),
      a ∈ dedupSeen seen l ↔ a ∈ l ∧ a ∉ seen := by
  induction l with
  | nil => intro seen a; simp [dedupSeen]
  | cons x xs ih =>
      intro seen a
      by_cases hx : x ∈ seen
      · rw [dedupSeen, if_pos hx, ih]
        constructor
        · rintro ⟨h1, h2⟩; exact ⟨List.mem_cons_of_mem x h1, h2⟩
        · rintro ⟨h1, h2⟩
          rcases List.mem_cons.mp h1 with h1 | h1
          · exact absurd (h1 ▸ hx) h2
          · exact ⟨h1, h2⟩
      · rw [dedupSeen, if_neg hx]
        constructor
        · intro h
          rcases List.mem_cons.mp h with h | h
          · exact ⟨h ▸ List.mem_cons_self x xs, h ▸ hx⟩
          · rcases (ih (x :: seen) a).mp h with ⟨h1, h2⟩
            exact ⟨List.mem_cons_of_mem x h1,
              fun hs => h2 (List.mem_cons_of_mem x hs)⟩
        · rintro ⟨h1, h2⟩
          by_cases hax : a = x
          · exact hax ▸ List.mem_cons_self x _
          · rcases List.mem_cons.mp h1 with h1 | h1
            · exact absurd h1 hax
            · refine List.mem_cons_of_mem x ((ih (x :: seen) a).mpr ⟨h1, ?_⟩)
              intro hs
              rcases List.mem_cons.mp hs with hs | hs
              · exact hax hs
              · exact h2 hs

/-- Membership survives drop_duplicates in both directions. -/
theorem mem_drop_duplicates {α : Type} [DecidableEq α] (l : List α)
    (a : α) : a ∈ drop_duplicates l ↔ a ∈ l := by
  simp [drop_duplicates, mem_dedupSeen]

/-- dedupSeen returns a sublist of its input, so kept rows stay in their
original relative order. -/
theorem dedupSeen_sublist {α : Type} [DecidableEq α] (l : List α) :
    ∀ seen : List α, List.Sublist (dedupSeen seen l) l := by
  induction l with
  | nil => intro seen; simp [dedupSeen]
  | cons x xs ih =>
      intro seen
      by_cases hx : x ∈ seen
      · rw [dedupSeen, if_pos hx]
        exact (ih seen).trans (List.sublist_cons_self x xs)
      · rw [dedupSeen, if_neg hx]
        exact (ih (x :: seen)).cons₂ x

/-- drop_duplicates returns a sublist of its input. -/
theorem drop_duplicates_sublist {α : Type} [DecidableEq α] (l : List α) :
    List.Sublist (drop_duplicates l) l :=
  dedupSeen_sublist l []

/-- dedupSeen never keeps two equal rows. -/
theorem nodup_dedupSeen {α : Type} [DecidableEq α] (l : List α) :
    ∀ seen : List α, (dedupSeen seen l).Nodup := by
  induction l with
  | nil => intro seen; simp [dedupSeen]
  | cons x xs ih =>
      intro seen
      by_cases hx : x ∈ seen
      · rw [dedupSeen, if_pos hx]; exact ih seen
      · rw [dedupSeen, if_neg hx]
        refine List.nodup_cons.mpr ⟨fun hmem => ?_, ih (x :: seen)⟩
        exact ((mem_dedupSeen xs (x :: seen) x).mp hmem).2
          (List.mem_cons_self x seen)

/-- The result of drop_duplicates is duplicate-free. -/
theorem nodup_drop_duplicates {α : Type} [DecidableEq α] (l : List α) :
    (drop_duplicates l).Nodup :=
  nodup_dedupSeen l []

/-- drop_duplicates keeps the first occurrence: the head of the input
stays at the front of the output. -/
theorem drop_duplicates_cons {α : Type} [DecidableEq α] (x : α)
    (xs : List α) :
    drop_duplicates (x :: xs) = x :: dedupSeen [x] xs := by
  simp [drop_duplicates, dedupSeen]

/-- A sample error-log row of a successful deletion, used in concrete
checks. -/
def entA : ErrorLogEntry :=
  { success := true, created := false, id := "001",
    statusCode := none, message := none }

/-- A sample error-log row of a failed deletion, used in concrete
checks. -/
def entB : ErrorLogEntry :=
  { success := false, created := false, id := "002",
    statusCode := some "ENTITY_IS_DELETED",
    message := some "entity is deleted" }

/-- A sample fully successful bulk-operation result with no nested
errors, used in concrete checks. -/
def bresOk : BulkOperationResult :=
  { success := true, created := false, id := "003", errors := [] }

end SfOps

namespace SfOps

/-- C1: for every list of bulk-operation results the flattening step
produces exactly one error-log entry per input record, in order, copying
success, created and id verbatim; when the nested error list is
non-empty the statusCode and message of the entry are those of the first
nested error only, and when it is empty both fields are absent. -/
theorem claim_flatten_correct (results : List BulkOperationResult) :
    (flat_errors results).length = results.length ∧
    List.Forall₂ (fun e f =>
      f.success = e.success ∧ f.created = e.created ∧ f.id = e.id ∧
      ((e.errors = [] ∧ f.statusCode = none ∧ f.message = none) ∨
        ∃ er rest, e.errors = er :: rest ∧
          f.statusCode = some er.statusCode ∧
          f.message = some er.message))
      results (flat_errors results) := by
  constructor
  · simp [flat_errors]
  · rw [flat_errors, List.forall₂_map_right_iff]
    refine List.forall₂_same.mpr ?_
    intro e he
    refine ⟨rfl, rfl, rfl, ?_⟩
    cases herr : e.errors with
    | nil => exact Or.inl ⟨rfl, by simp [flat_error, herr], by simp [flat_error, herr]⟩
    | cons er rest =>
        exact Or.inr ⟨er, rest, rfl,
          by simp [flat_error, herr], by simp [flat_error, herr]⟩

/-- C2: appending the same flattened result set to the error log twice
yields the same row set on disk as appending it once: a second run of
save_error_to_csv with the same results leaves membership in the file
rows unchanged. -/
theorem claim_append_idempotent (errors : List BulkOperationResult)
    (file : ErrorLogFile) (r : ErrorLogEntry) :
    (r ∈ rowsOf (save_error_to_csv errors (save_error_to_csv errors file)) ↔
      r ∈ rowsOf (save_error_to_csv errors file)) := by
  cases file with
  | absent =>
      simp [save_error_to_csv, appendDeduplicated, rowsOf,
        mem_drop_duplicates]
  | emptyData =>
      simp [save_error_to_csv, appendDeduplicated, rowsOf,
        mem_drop_duplicates]
  | table existing =>
      simp only [save_error_to_csv, appendDeduplicated, rowsOf,
        mem_drop_duplicates, List.mem_append]
      tauto

/-- C3 counterexample: with the log file absent and three new rows of
which one duplicates another, the code writes all three rows verbatim
(no deduplication in the absent branch), not the two-row deduplicated
set that treating the existing content as empty would give. -/
theorem claim_store_contract_cex :
    appendDeduplicated [entA, entA, entB] ErrorLogFile.absent =
      ErrorLogFile.table [entA, entA, entB] ∧
    appendDeduplicatedSpec [entA, entA, entB] ErrorLogFile.absent =
      ErrorLogFile.table [entA, entB] ∧
    appendDeduplicated [entA, entA, entB] ErrorLogFile.absent ≠
      appendDeduplicatedSpec [entA, entA, entB] ErrorLogFile.absent := by
  refine ⟨rfl, by decide, by decide⟩

/-- C3 amended: when the path exists and parses as a non-empty table the
merge reads the existing rows, concatenates the new rows after them,
removes exact-duplicate rows keeping the first occurrence (the result is
a duplicate-free sublist with the membership of the concatenation) and
overwrites the path; when the path is absent or present-but-empty the
new rows are written verbatim, without deduplication among
themselves. -/
theorem claim_store_contract_amended (df existing : List ErrorLogEntry) :
    appendDeduplicated df (ErrorLogFile.table existing) =
      ErrorLogFile.table (drop_duplicates (existing ++ df)) ∧
    (drop_duplicates (existing ++ df)).Nodup ∧
    List.Sublist (drop_duplicates (existing ++ df)) (existing ++ df) ∧
    (∀ a, a ∈ drop_duplicates (existing ++ df) ↔ a ∈ existing ∨ a ∈ df) ∧
    appendDeduplicated df ErrorLogFile.absent = ErrorLogFile.table df ∧
    appendDeduplicated df ErrorLogFile.emptyData = ErrorLogFile.table df := by
  refine ⟨rfl, nodup_drop_duplicates _, drop_duplicates_sublist _,
    ?_, rfl, rfl⟩
  intro a
  simp [mem_drop_duplicates]

/-- C4: run on an empty identifier file (header, zero id rows) the
deletion job returns normally, making exactly one bulk-delete call that
carries zero records. -/
theorem claim_deletion_empty_input
    (bulkDelete : List String → Except PyExn (List BulkOperationResult))
    (log : ErrorLogFile) :
    ∃ out, read_ids_from_csv (Except.ok []) bulkDelete log =
        Except.ok out ∧
      out.bulkCalls = [([] : List String)] := by
  cases h : bulkDelete [] with
  | ok result =>
      exact ⟨_, by rw [read_ids_from_csv, h], rfl⟩
  | error e =>
      exact ⟨_, by rw [read_ids_from_csv, h], rfl⟩

/-- C5 counterexample: a store-read failure escapes read_ids_from_csv
uncaught, because pd.read_csv runs before the try block. -/
theorem claim_deletion_no_raise_cex :
    read_ids_from_csv (Except.error PyExn.readFailure)
        (fun _ => Except.ok []) ErrorLogFile.absent =
      Except.error PyExn.readFailure := rfl

/-- C5 amended: a gateway (bulk-delete) failure is caught inside the try
block, the error is printed and the job returns normally; a store-read
failure happens before the try block and propagates to the caller. -/
theorem claim_deletion_error_policy :
    (∀ (e : PyExn)
       (g : List String → Except PyExn (List BulkOperationResult))
       (log : ErrorLogFile),
        read_ids_from_csv (Except.error e) g log = Except.error e) ∧
    (∀ (ids : List String)
       (g : List String → Except PyExn (List BulkOperationResult))
       (log : ErrorLogFile) (e : PyExn),
        g ids = Except.error e →
        read_ids_from_csv (Except.ok ids) g log =
          Except.ok { bulkCalls := [ids], errorLog := log,
                      printedError := true }) := by
  constructor
  · intro e g log; rfl
  · intro ids g log e h
    rw [read_ids_from_csv, h]

/-- C5 amended witness: the policy at a concrete failing gateway and a
concrete read failure. -/
theorem claim_deletion_error_policy_witness :
    read_ids_from_csv (Except.error PyExn.gatewayFailure)
        (fun _ => Except.ok []) ErrorLogFile.absent =
      Except.error PyExn.gatewayFailure ∧
    read_ids_from_csv (Except.ok ["001"])
        (fun _ => Except.error PyExn.gatewayFailure) ErrorLogFile.absent =
      Except.ok { bulkCalls := [["001"]],
                  errorLog := ErrorLogFile.absent,
                  printedError := true } :=
  ⟨claim_deletion_error_policy.1 PyExn.gatewayFailure
      (fun _ => Except.ok []) ErrorLogFile.absent,
    claim_deletion_error_policy.2 ["001"]
      (fun _ => Except.error PyExn.gatewayFailure)
      ErrorLogFile.absent PyExn.gatewayFailure rfl⟩

/-- C6 counterexample: identifiers with embedded quote characters are
neither rejected nor escaped: the single crafted identifier a-quote,
quote-b produces exactly the query of the two-identifier list [a, b], so
an input identifier altered the structure of the generated predicate,
and the embedded quotes appear verbatim in the query. -/
theorem claim_quote_safety_cex :
    deletionCheckQuery "Account" ["a", "b"] =
      deletionCheckQuery "Account" ["a\x27,\x27b"] ∧
    ["a", "b"] ≠ ["a\x27,\x27b"] ∧
    deletionCheckQuery "Account" ["a\x27,\x27b"] =
      "SELECT Id FROM Account WHERE Id IN (\x27a\x27,\x27b\x27)" := by
  refine ⟨rfl, by decide, rfl⟩

/-- C6 amended: identifiers are embedded verbatim between single quotes,
joined by quote-comma-quote, with no escaping and no rejection; hence an
identifier containing quote characters alters the predicate structure:
for all identifiers a and b, the one-element list holding the crafted
identifier a-quote,quote-b generates exactly the query of the
two-element list [a, b]. -/
theorem claim_quote_safety_amended (ot a b : String) :
    deletionCheckQuery ot [a] =
      "SELECT Id FROM " ++ ot ++ " WHERE Id IN (\x27" ++ a ++ "\x27)" ∧
    deletionCheckQuery ot [a, b] =
      deletionCheckQuery ot [a ++ "\x27,\x27" ++ b] :=
  ⟨rfl, rfl⟩

/-- C7: the error log is never truncated: every row present in the file
before a merge is still present after the merge, for every file state
and every new result list. -/
theorem claim_log_never_truncated (errors : List BulkOperationResult)
    (file : ErrorLogFile) (r : ErrorLogEntry)
    (h : r ∈ rowsOf file) :
    r ∈ rowsOf (save_error_to_csv errors file) := by
  cases file with
  | absent => simp [rowsOf] at h
  | emptyData => simp [rowsOf] at h
  | table existing =>
      simp only [rowsOf] at h
      simp only [save_error_to_csv, appendDeduplicated, rowsOf,
        mem_drop_duplicates, List.mem_append]
      exact Or.inl h

/-- C7 witness: a row already in a one-row log survives a merge of an
empty result list. -/
theorem claim_log_never_truncated_witness :
    entA ∈ rowsOf (save_error_to_csv [] (ErrorLogFile.table [entA])) :=
  claim_log_never_truncated [] (ErrorLogFile.table [entA]) entA
    (by simp [rowsOf])

/-- C8: the extraction job never propagates an exception: for every
fetch result and every csv writer, query_and_write_records returns
normally, either having written the fetched ids or having printed the
error from the except branch. -/
theorem claim_extraction_no_raise (fetch : Except PyExn (List String))
    (toCsv : List String → Except PyExn Unit) :
    ∃ out, query_and_write_records fetch toCsv = Except.ok out ∧
      ((∃ ids, fetch = Except.ok ids ∧ toCsv ids = Except.ok () ∧
          out = ExtractionOutcome.savedCsv ids) ∨
        out = ExtractionOutcome.printedError) := by
  cases fetch with
  | error e => exact ⟨ExtractionOutcome.printedError, rfl, Or.inr rfl⟩
  | ok ids =>
      cases h : toCsv ids with
      | ok u =>
          exact ⟨ExtractionOutcome.savedCsv ids,
            by rw [query_and_write_records, h],
            Or.inl ⟨ids, rfl, by rw [h], rfl⟩⟩
      | error e =>
          exact ⟨ExtractionOutcome.printedError,
            by rw [query_and_write_records, h], Or.inr rfl⟩

/-- C9: the error log records every attempted deletion, not only
failures: each result in the input list lands in the written file
regardless of its success flag, and a result with an empty nested error
list yields a row with absent statusCode and message. -/
theorem claim_log_records_all (file : ErrorLogFile)
    (errors : List BulkOperationResult) (e : BulkOperationResult)
    (he : e ∈ errors) :
    flat_error e ∈ rowsOf (save_error_to_csv errors file) ∧
    (e.errors = [] →
      flat_error e =
        { success := e.success, created := e.created, id := e.id,
          statusCode := none, message := none }) := by
  constructor
  · have hmem : flat_error e ∈ flat_errors errors :=
      List.mem_map_of_mem flat_error he
    cases file with
    | absent =>
        simpa [save_error_to_csv, appendDeduplicated, rowsOf] using hmem
    | emptyData =>
        simpa [save_error_to_csv, appendDeduplicated, rowsOf] using hmem
    | table existing =>
        simp only [save_error_to_csv, appendDeduplicated, rowsOf,
          mem_drop_duplicates, List.mem_append]
        exact Or.inr hmem
  · intro h
    simp [flat_error, h]

/-- C9 witness: a fully successful result with no nested errors lands in
the log of a fresh file, with absent statusCode and message. -/
theorem claim_log_records_all_witness :
    flat_error bresOk ∈
      rowsOf (save_error_to_csv [bresOk] ErrorLogFile.absent) ∧
    (bresOk.errors = [] →
      flat_error bresOk =
        { success := bresOk.success, created := bresOk.created,
          id := bresOk.id, statusCode := none, message := none }) :=
  claim_log_records_all ErrorLogFile.absent [bresOk] bresOk (by simp)

/-- C10: on an identifier file with a header but zero id rows, the
verification job does not skip the network call: it builds the
degenerate predicate over the empty id list and still passes the query
to query_all. -/
theorem claim_check_empty_still_queries (ot : String)
    (query_all : String → Except PyExn (List String)) :
    ∃ b, check_deleted_records ot (Except.ok []) query_all =
        Except.ok ("SELECT Id FROM " ++ ot ++ " WHERE Id IN (\x27\x27)", b) := by
  have hq : deletionCheckQuery ot [] =
      "SELECT Id FROM " ++ ot ++ " WHERE Id IN (\x27\x27)" := by
    show ("SELECT Id FROM " ++ ot ++ " WHERE Id IN (\x27" ++ "") ++ "\x27)" = _
    rw [String.append_empty, String.append_assoc]
    exact congrArg (fun s => "SELECT Id FROM " ++ ot ++ s) (by decide)
  cases h : query_all (deletionCheckQuery ot []) with
  | ok r =>
      exact ⟨true, by rw [check_deleted_records, h, hq]⟩
  | error e =>
      exact ⟨false, by rw [check_deleted_records, h, hq]⟩

end SfOps
